import Mathlib

/-!
Verification development for the mooring-port monitoring service.

The service layer is embedded from src/app.py: the Flask handlers become pure
functions from the held worker state (an Option PortData, mirroring the global
port_worker that is None until the first successful generation) to
Except-valued responses.  The generation/update engine lives in the
mooring_data_generator package, whose source is not part of this repository
snapshot; those parts are modelled from the specification (sections 4.1-4.5)
and are marked as such in their doc comments.  Randomness is made explicit:
every random draw of the engine is an oracle value supplied as an argument, so
theorems quantify over all possible draws.  Python floats are modelled as
rationals.
-/

namespace Mooring

/-- Status reported by a berth radar (the distance_status string field). -/
inductive DistanceStatus where
  | ACTIVE
  | INACTIVE
  deriving DecidableEq

/-- A mooring hook: optional tension reading, fault flag, line attachment. -/
structure Hook where
  name : String
  tension : Option ℚ
  faulted : Bool
  attachedLine : Bool
  deriving DecidableEq

/-- A bollard fitted with mooring hooks. -/
structure Bollard where
  name : String
  hooks : List Hook
  deriving DecidableEq

/-- A docked ship. -/
structure Ship where
  name : String
  vesselId : String
  deriving DecidableEq

/-- A radar sensor measuring ship-to-berth distance. -/
structure Radar where
  name : String
  shipDistance : ℚ
  distanceChange : ℚ
  distanceStatus : DistanceStatus
  deriving DecidableEq

/-- A berth with its denormalized bollard and hook totals. -/
structure Berth where
  name : String
  bollardCount : Nat
  hookCount : Nat
  ship : Option Ship
  radars : List Radar
  bollards : List Bollard
  deriving DecidableEq

/-- The full port state held by the port worker (port_worker.data). -/
structure PortData where
  name : String
  berths : List Berth
  deriving DecidableEq

/-- Configuration of the engine: the maximum radar distance and the proximity
threshold used to compute the radar status. -/
structure Config where
  maxDistance : ℚ
  proximityThreshold : ℚ

/-- Clamp a rational into the interval from lo to hi. -/
def clampQ (lo hi x : ℚ) : ℚ :=
  max lo (min hi x)

/-- Modelled from the spec: oracle values consumed by initHook (section 4.2) —
whether the line is attached, whether the hook is faulted, and the seed for the
initial tension draw from the range 0 to 100. -/
structure HookInit where
  attach : Bool
  fault : Bool
  seed : ℚ

/-- Modelled from the spec: the Sensor Reading Generator initHook (section 4.2,
absent from src).  Attachment is a random boolean (the oracle field); if
attached, tension is drawn from the range 0 to 100 (modelled by clamping the
oracle seed into that range); an unattached hook has null tension; the fault
flag is an independent random boolean, and a faulted hook keeps its stale
numeric tension (the stale-value policy of section 9). -/
def initHook (hname : String) (r : HookInit) : Hook :=
  { name := hname
    tension := if r.attach then some (clampQ 0 100 r.seed) else none
    faulted := r.fault
    attachedLine := r.attach }

/-- Modelled from the spec: oracle value consumed by initRadar — the seed for
the initial distance draw. -/
structure RadarInit where
  seed : ℚ

/-- Modelled from the spec: the Sensor Reading Generator initRadar (section
4.2, absent from src).  With a ship present the distance is drawn from the
docking range (modelled by clamping the oracle seed into the range 0 to the
configured maximum) and the status is computed from the distance against the
proximity threshold; with no ship the distance is the large neutral value and
the status is INACTIVE. -/
def initRadar (cfg : Config) (rname : String) (shipPresent : Bool) (r : RadarInit) : Radar :=
  if shipPresent then
    { name := rname
      shipDistance := clampQ 0 cfg.maxDistance r.seed
      distanceChange := 0
      distanceStatus :=
        if clampQ 0 cfg.maxDistance r.seed ≤ cfg.proximityThreshold then
          DistanceStatus.ACTIVE
        else DistanceStatus.INACTIVE }
  else
    { name := rname
      shipDistance := cfg.maxDistance
      distanceChange := 0
      distanceStatus := DistanceStatus.INACTIVE }

/-- Modelled from the spec: the topology chosen by the Topology Builder for one
bollard — its name (from the Name/ID Pool) and its hooks with their init
oracles. -/
structure BollardSpec where
  name : String
  hooks : List (String × HookInit)

/-- Modelled from the spec: the topology chosen by the Topology Builder for one
berth — name, optional ship, radars and bollards with their init oracles. -/
structure BerthSpec where
  name : String
  ship : Option Ship
  radars : List (String × RadarInit)
  bollards : List BollardSpec

/-- Modelled from the spec: the Topology Builder assembling one bollard. -/
def buildBollard (bs : BollardSpec) : Bollard :=
  { name := bs.name
    hooks := bs.hooks.map fun nh => initHook nh.1 nh.2 }

/-- Modelled from the spec: the Topology Builder assembling one berth (section
4.3, absent from src); the denormalized bollardCount and hookCount fields are
set consistently with the generated nested sequences. -/
def buildBerth (cfg : Config) (bs : BerthSpec) : Berth :=
  { name := bs.name
    bollardCount := (bs.bollards.map buildBollard).length
    hookCount := ((bs.bollards.map buildBollard).map fun bo => bo.hooks.length).sum
    ship := bs.ship
    radars := bs.radars.map fun nr => initRadar cfg nr.1 bs.ship.isSome nr.2
    bollards := bs.bollards.map buildBollard }

/-- Modelled from the spec: the Topology Builder build (section 4.3, absent
from src), assembling a full port from the chosen topology and init oracles. -/
def buildPort (cfg : Config) (pname : String) (specs : List BerthSpec) : PortData :=
  { name := pname
    berths := specs.map (buildBerth cfg) }

/-- Modelled from the spec: oracle values consumed by one update of one hook —
the tension random-walk delta, the fault transition event, the detach event,
the reattach event, and the seed for a fresh tension draw. -/
structure HookRand where
  delta : ℚ
  fault : Bool
  detach : Bool
  reattach : Bool
  freshSeed : ℚ

/-- Modelled from the spec: the Update Engine step for one hook (section 4.4,
absent from src).  An attached hook may detach (tension becomes null), else its
tension takes a bounded random walk clamped to the range 0 to 100; the fault
flag may transition false to true and never heals; an unattached hook may
reattach with a fresh tension drawn from the range 0 to 100. -/
def updateHook (r : HookRand) (h : Hook) : Hook :=
  if h.attachedLine then
    if r.detach then
      { h with attachedLine := false, tension := none, faulted := h.faulted || r.fault }
    else
      { h with tension := h.tension.map fun t => clampQ 0 100 (t + r.delta)
               faulted := h.faulted || r.fault }
  else
    if r.reattach then
      { h with attachedLine := true, tension := some (clampQ 0 100 r.freshSeed) }
    else
      h

/-- Modelled from the spec: the Update Engine step for one radar on a berth
with a ship (section 4.4, absent from src) — draw a new signed distance
change, apply it to the distance clamped into the configured range, and
recompute the status against the proximity threshold. -/
def updateRadar (cfg : Config) (seed : ℚ) (r : Radar) : Radar :=
  { r with
    shipDistance := clampQ 0 cfg.maxDistance (r.shipDistance + seed)
    distanceChange := seed
    distanceStatus :=
      if clampQ 0 cfg.maxDistance (r.shipDistance + seed) ≤ cfg.proximityThreshold then
        DistanceStatus.ACTIVE
      else DistanceStatus.INACTIVE }

/-- Modelled from the spec: the oracle values consumed by one update tick —
one HookRand per hook position and one distance-change draw per radar
position. -/
structure TickRand where
  hookR : Nat → Nat → Nat → HookRand
  radarR : Nat → Nat → ℚ

/-- Map a function receiving the element index over a list, starting at a
given index. -/
def mapWithIdx (f : Nat → α → β) : Nat → List α → List β
  | _, [] => []
  | i, a :: as => f i a :: mapWithIdx f (i + 1) as

/-- Modelled from the spec: the Update Engine step for one bollard. -/
def updateBollard (ρ : Nat → HookRand) (bo : Bollard) : Bollard :=
  { bo with hooks := mapWithIdx (fun i h => updateHook (ρ i) h) 0 bo.hooks }

/-- Modelled from the spec: the Update Engine step for one berth; radars on a
berth without a ship remain unchanged (and hence INACTIVE). -/
def updateBerth (cfg : Config) (ρh : Nat → Nat → HookRand) (ρr : Nat → ℚ) (be : Berth) : Berth :=
  { be with
    bollards := mapWithIdx (fun i bo => updateBollard (ρh i) bo) 0 be.bollards
    radars :=
      if be.ship.isSome then mapWithIdx (fun i r => updateRadar cfg (ρr i) r) 0 be.radars
      else be.radars }

/-- Modelled from the spec: the Update Engine update (section 4.4, absent from
src), advancing every hook and every radar by one tick in place. -/
def updatePort (cfg : Config) (ρ : TickRand) (p : PortData) : PortData :=
  { p with berths := mapWithIdx (fun i be => updateBerth cfg (ρ.hookR i) (ρ.radarR i) be) 0 p.berths }

/-- Iterate the update engine n times, tick k consuming the oracle ρs k. -/
def updateN (cfg : Config) (ρs : Nat → TickRand) : Nat → PortData → PortData
  | 0, p => p
  | n + 1, p => updateN cfg ρs n (updatePort cfg (ρs n) p)

/-- Hook-level invariant: a non-null tension implies an attached line. -/
def hookOK (h : Hook) : Bool :=
  h.tension.isNone || h.attachedLine

/-- Port-level invariant of section 3: every hook with a non-null tension has
attachedLine true. -/
def hookInvB (p : PortData) : Bool :=
  p.berths.all fun be => be.bollards.all fun bo => bo.hooks.all hookOK

/-- Hook-level range invariant: a non-null tension lies in the range 0 to
100. -/
def tensionRangeOK (h : Hook) : Bool :=
  h.tension.all fun t => decide (0 ≤ t) && decide (t ≤ 100)

/-- Radar-level range invariant: the distance lies in the range 0 to the
configured maximum. -/
def radarRangeOK (cfg : Config) (r : Radar) : Bool :=
  decide (0 ≤ r.shipDistance) && decide (r.shipDistance ≤ cfg.maxDistance)

/-- Port-level range invariant of section 8: every tension in the range 0 to
100, every radar distance in the range 0 to the configured maximum. -/
def rangeInvB (cfg : Config) (p : PortData) : Bool :=
  p.berths.all fun be =>
    (be.bollards.all fun bo => bo.hooks.all tensionRangeOK) && be.radars.all (radarRangeOK cfg)

/-- Structural skeleton of a bollard: its hook count. -/
def bollardShape (bo : Bollard) : Nat :=
  bo.hooks.length

/-- Structural skeleton of a berth: the denormalized counts, the radar count
and the per-bollard hook counts. -/
def berthShape (be : Berth) : Nat × Nat × Nat × List Nat :=
  (be.bollardCount, be.hookCount, be.radars.length, be.bollards.map bollardShape)

/-- Structural skeleton of a port: the berth skeletons in order. -/
def portShape (p : PortData) : List (Nat × Nat × Nat × List Nat) :=
  p.berths.map berthShape

/-- Predicate counted by critical_count in get_tension_analysis (src/app.py
line 274): the hook is unfaulted and its tension is non-null and at least
86. -/
def criticalHook (h : Hook) : Bool :=
  !h.faulted && h.tension.any fun t => decide (86 ≤ t)

/-- Predicate counted by dangerous_count in get_tension_analysis (src/app.py
line 275): unfaulted, tension non-null and between 70 and 85. -/
def dangerousHook (h : Hook) : Bool :=
  !h.faulted && h.tension.any fun t => decide (70 ≤ t) && decide (t ≤ 85)

/-- Predicate counted by attention_count in get_tension_analysis (src/app.py
line 276): unfaulted, tension non-null and between 40 and 69. -/
def attentionHook (h : Hook) : Bool :=
  !h.faulted && h.tension.any fun t => decide (40 ≤ t) && decide (t ≤ 69)

/-- Predicate counted by faulted_count in get_tension_analysis (src/app.py
line 277): the hook is faulted. -/
def faultedHook (h : Hook) : Bool :=
  h.faulted

/-- The critical_count of a hook list (src/app.py line 274). -/
def criticalCount (hs : List Hook) : Nat :=
  hs.countP criticalHook

/-- The dangerous_count of a hook list (src/app.py line 275). -/
def dangerousCount (hs : List Hook) : Nat :=
  hs.countP dangerousHook

/-- The attention_count of a hook list (src/app.py line 276). -/
def attentionCount (hs : List Hook) : Nat :=
  hs.countP attentionHook

/-- The faulted_count of a hook list (src/app.py line 277). -/
def faultedCount (hs : List Hook) : Nat :=
  hs.countP faultedHook

/-- The total_tension of a hook list in get_tension_analysis (src/app.py line
278): the sum of every non-null tension, with no fault check. -/
def totalTension (hs : List Hook) : ℚ :=
  (hs.filterMap Hook.tension).sum

/-- One entry of the analysis view (the bollard_info dictionary of
get_tension_analysis, src/app.py lines 280-299). -/
structure BollardInfo where
  berth_name : String
  bollard_name : String
  ship_name : String
  vessel_id : String
  critical_count : Nat
  dangerous_count : Nat
  attention_count : Nat
  faulted_count : Nat
  total_tension : ℚ
  hooks : List Hook
  deriving DecidableEq

/-- Build the analysis entry for one bollard of one berth (src/app.py lines
272-300). -/
def mkBollardInfo (be : Berth) (bo : Bollard) : BollardInfo :=
  { berth_name := be.name
    bollard_name := bo.name
    ship_name := match be.ship with | some s => s.name | none => "No Ship"
    vessel_id := match be.ship with | some s => s.vesselId | none => "N/A"
    critical_count := criticalCount bo.hooks
    dangerous_count := dangerousCount bo.hooks
    attention_count := attentionCount bo.hooks
    faulted_count := faultedCount bo.hooks
    total_tension := totalTension bo.hooks
    hooks := bo.hooks }

/-- All bollard entries of the port in collection order (the nested loops of
src/app.py lines 269-300). -/
def allBollardInfos (p : PortData) : List BollardInfo :=
  p.berths.flatMap fun be => be.bollards.map (mkBollardInfo be)

/-- The descending lexicographic priority order of the analysis view: a
compares greater-or-equal to b under the key (critical_count, faulted_count,
total_tension), matching the reverse sort of src/app.py line 303. -/
def keyGE (a b : BollardInfo) : Prop :=
  b.critical_count < a.critical_count ∨
    (b.critical_count = a.critical_count ∧
      (b.faulted_count < a.faulted_count ∨
        (b.faulted_count = a.faulted_count ∧ b.total_tension ≤ a.total_tension)))

instance keyGE.decRel : DecidableRel keyGE := fun a b => by
  unfold keyGE
  exact inferInstance

instance keyGE.total : IsTotal BollardInfo keyGE :=
  ⟨fun a b => by
    unfold keyGE
    rcases Nat.lt_trichotomy b.critical_count a.critical_count with h | h | h
    · exact Or.inl (Or.inl h)
    · rcases Nat.lt_trichotomy b.faulted_count a.faulted_count with h2 | h2 | h2
      · exact Or.inl (Or.inr ⟨h, Or.inl h2⟩)
      · rcases le_total b.total_tension a.total_tension with h3 | h3
        · exact Or.inl (Or.inr ⟨h, Or.inr ⟨h2, h3⟩⟩)
        · exact Or.inr (Or.inr ⟨h.symm, Or.inr ⟨h2.symm, h3⟩⟩)
      · exact Or.inr (Or.inr ⟨h.symm, Or.inl h2⟩)
    · exact Or.inr (Or.inl h)⟩

instance keyGE.transitive : IsTrans BollardInfo keyGE :=
  ⟨fun a b c hab hbc => by
    unfold keyGE at hab hbc ⊢
    rcases hab with h1 | ⟨e1, p1⟩ <;> rcases hbc with h2 | ⟨e2, p2⟩
    · exact Or.inl (lt_trans h2 h1)
    · exact Or.inl (lt_of_le_of_lt (le_of_eq e2) h1)
    · exact Or.inl (lt_of_lt_of_le h2 (le_of_eq e1))
    · refine Or.inr ⟨e2.trans e1, ?_⟩
      rcases p1 with q1 | ⟨f1, t1⟩ <;> rcases p2 with q2 | ⟨f2, t2⟩
      · exact Or.inl (lt_trans q2 q1)
      · exact Or.inl (lt_of_le_of_lt (le_of_eq f2) q1)
      · exact Or.inl (lt_of_lt_of_le q2 (le_of_eq f1))
      · exact Or.inr ⟨f2.trans f1, le_trans t2 t1⟩⟩

/-- The priority-sorted bollard list of the analysis view (src/app.py line
303): the stable sort of the collected entries, descending under the
three-part key.  Python list.sort with reverse=True is a stable sort with
respect to keyGE, as is insertionSort. -/
def analysisSortedBollards (p : PortData) : List BollardInfo :=
  (allBollardInfos p).insertionSort keyGE

/-- All hooks of the port in iteration order (the nested loops of
get_statistics, src/app.py lines 237-245). -/
def allHooks (p : PortData) : List Hook :=
  p.berths.flatMap fun be => be.bollards.flatMap fun bo => bo.hooks

/-- The active_hooks counter of get_statistics (src/app.py lines 240-241):
hooks with an attached line, with no fault check. -/
def activeHooksCount (hs : List Hook) : Nat :=
  hs.countP fun h => h.attachedLine

/-- The faulted_hooks counter of get_statistics (src/app.py lines 242-243). -/
def faultedHooksCount (hs : List Hook) : Nat :=
  hs.countP fun h => h.faulted

/-- The total_tension accumulator of get_statistics (src/app.py lines
244-245): the sum of every non-null tension, with no fault check. -/
def statsTotalTension (hs : List Hook) : ℚ :=
  (hs.filterMap Hook.tension).sum

/-- Ship summary used by several views: name and vessel id. -/
def shipView (s : Option Ship) : Option (String × String) :=
  s.map fun sh => (sh.name, sh.vesselId)

/-- Per-berth summary of the generation endpoint (src/app.py lines 78-88). -/
structure BerthSummary where
  name : String
  bollard_count : Nat
  hook_count : Nat
  ship : Option (String × String)
  active_radars : Nat
  total_radars : Nat
  deriving DecidableEq

/-- Build the per-berth summary of the generation endpoint. -/
def mkBerthSummary (be : Berth) : BerthSummary :=
  { name := be.name
    bollard_count := be.bollardCount
    hook_count := be.hookCount
    ship := shipView be.ship
    active_radars :=
      (be.radars.filter fun r => decide (r.distanceStatus = DistanceStatus.ACTIVE)).length
    total_radars := be.radars.length }

/-- Response of the generation endpoint /api/port (src/app.py lines 74-91). -/
structure PortResponse where
  port_name : String
  total_berths : Nat
  berths : List BerthSummary
  deriving DecidableEq

/-- Handler get_port (src/app.py lines 56-91).  The build step is the missing
generator package; its outcome (a fresh port or a generation failure such as
NamesExhausted) is the buildResult argument.  On failure the handler reports
the error and the global port_worker keeps its previous value, because the
failed assignment never happens. -/
def get_port (buildResult : Except String PortData) (s : Option PortData) :
    Except String PortResponse × Option PortData :=
  match buildResult with
  | Except.error e => (Except.error ("Failed to generate port: " ++ e), s)
  | Except.ok d =>
      (Except.ok
        { port_name := d.name
          total_berths := d.berths.length
          berths := d.berths.map mkBerthSummary }, some d)

/-- Radar rendering shared by the detailed views (src/app.py lines
112-120). -/
structure RadarView where
  name : String
  ship_distance : ℚ
  distance_change : ℚ
  status : DistanceStatus
  deriving DecidableEq

/-- Detailed berth rendering shared by get_berths, get_berth and the download
endpoint (src/app.py lines 103-137). -/
structure BerthDetail where
  name : String
  bollard_count : Nat
  hook_count : Nat
  ship : Option (String × String)
  radars : List RadarView
  bollards : List Bollard
  deriving DecidableEq

/-- Build the detailed berth rendering. -/
def mkBerthDetail (be : Berth) : BerthDetail :=
  { name := be.name
    bollard_count := be.bollardCount
    hook_count := be.hookCount
    ship := shipView be.ship
    radars := be.radars.map fun r =>
      { name := r.name
        ship_distance := r.shipDistance
        distance_change := r.distanceChange
        status := r.distanceStatus }
    bollards := be.bollards }

/-- Handler get_berths (src/app.py lines 94-142): the 404 error before any
generation, else the port name with every berth detail. -/
def get_berths (s : Option PortData) : Except String (String × List BerthDetail) :=
  match s with
  | none => Except.error "No port data available. Call /api/port first"
  | some d => Except.ok (d.name, d.berths.map mkBerthDetail)

/-- Handler get_berth (src/app.py lines 145-191): the 404 error before any
generation, else a lookup of the berth by name. -/
def get_berth (berth_name : String) (s : Option PortData) : Except String BerthDetail :=
  match s with
  | none => Except.error "No port data available. Call /api/port first"
  | some d =>
      match d.berths.find? fun b => b.name == berth_name with
      | none => Except.error ("Berth not found: " ++ berth_name)
      | some b => Except.ok (mkBerthDetail b)

/-- Handler update_port (src/app.py lines 194-208): the 404 error before any
generation leaves the held state untouched; otherwise the worker state is
advanced one tick and the success message with the port name is returned. -/
def update_port (cfg : Config) (ρ : TickRand) (s : Option PortData) :
    Except String (String × String) × Option PortData :=
  match s with
  | none => (Except.error "No port data available. Call /api/port first", none)
  | some d =>
      (Except.ok ("Port data updated successfully", (updatePort cfg ρ d).name),
        some (updatePort cfg ρ d))

/-- Handler get_raw_port (src/app.py lines 211-219): the 404 error before any
generation, else the raw held data (string rendering out of scope). -/
def get_raw_port (s : Option PortData) : Except String PortData :=
  match s with
  | none => Except.error "No port data available. Call /api/port first"
  | some d => Except.ok d

/-- Response of the statistics endpoint (src/app.py lines 247-256). -/
structure StatsResponse where
  port_name : String
  total_berths : Nat
  total_bollards : Nat
  total_hooks : Nat
  active_hooks : Nat
  faulted_hooks : Nat
  total_tension : ℚ
  ships_docked : Nat
  deriving DecidableEq

/-- Handler get_statistics (src/app.py lines 222-256). -/
def get_statistics (s : Option PortData) : Except String StatsResponse :=
  match s with
  | none => Except.error "No port data available. Call /api/port first"
  | some d =>
      Except.ok
        { port_name := d.name
          total_berths := d.berths.length
          total_bollards := (d.berths.map Berth.bollardCount).sum
          total_hooks := (d.berths.map Berth.hookCount).sum
          active_hooks := activeHooksCount (allHooks d)
          faulted_hooks := faultedHooksCount (allHooks d)
          total_tension := statsTotalTension (allHooks d)
          ships_docked := (d.berths.filter fun b => b.ship.isSome).length }

/-- Response of the analysis endpoint (src/app.py lines 305-309). -/
structure AnalysisResponse where
  port_name : String
  total_bollards : Nat
  bollards : List BollardInfo
  deriving DecidableEq

/-- Handler get_tension_analysis (src/app.py lines 259-309). -/
def get_tension_analysis (s : Option PortData) : Except String AnalysisResponse :=
  match s with
  | none => Except.error "No port data available. Generate port data first"
  | some d =>
      Except.ok
        { port_name := d.name
          total_bollards := (analysisSortedBollards d).length
          bollards := analysisSortedBollards d }

/-- Export produced by the download endpoint (src/app.py lines 320-362).  The
timestamp field is filled with datetime.now().isoformat() at the moment the
download runs. -/
structure DataExport where
  timestamp : String
  port_name : String
  total_berths : Nat
  berths : List BerthDetail
  deriving DecidableEq

/-- Handler download_port_data (src/app.py lines 312-364): the now argument is
the wall-clock reading taken by datetime.now() when the request runs. -/
def download_port_data (now : String) (s : Option PortData) : Except String DataExport :=
  match s with
  | none => Except.error "No port data available. Generate port data first"
  | some d =>
      Except.ok
        { timestamp := now
          port_name := d.name
          total_berths := d.berths.length
          berths := d.berths.map mkBerthDetail }

/-- Modelled from the spec: the Port Worker read operation current() of
sections 4.5 and 6, absent from src; it fails with NoStateYet before any
successful build or regenerate. -/
def currentState (s : Option PortData) : Except String PortData :=
  match s with
  | none => Except.error "NoStateYet"
  | some d => Except.ok d

/-- A port state paired with the wall-clock reading at which its generation
ran; the PortData itself records no time at all. -/
structure TimedState where
  generatedAt : String
  data : PortData

/-- Concrete hook used as evaluation input: unattached, no reading. -/
def hookEx : Hook :=
  { name := "Hook-1", tension := none, faulted := false, attachedLine := false }

/-- Concrete bollard used as evaluation input. -/
def bollardEx1 : Bollard :=
  { name := "Bollard-1", hooks := [hookEx] }

/-- Second concrete bollard used as evaluation input. -/
def bollardEx2 : Bollard :=
  { name := "Bollard-2", hooks := [] }

/-- Concrete berth used as evaluation input. -/
def berthEx : Berth :=
  { name := "Berth-1"
    bollardCount := 2
    hookCount := 1
    ship := some { name := "Ship-1", vesselId := "V-001" }
    radars := []
    bollards := [bollardEx1, bollardEx2] }

/-- Concrete port used as evaluation input. -/
def portEx : PortData :=
  { name := "Port-Ex", berths := [berthEx] }

/-- Concrete engine configuration used as evaluation input. -/
def cfgEx : Config :=
  { maxDistance := 200, proximityThreshold := 30 }

/-- Concrete constant tick oracle used as evaluation input. -/
def tickEx : Nat → TickRand := fun _ =>
  { hookR := fun _ _ _ =>
      { delta := 3, fault := false, detach := false, reattach := true, freshSeed := 40 }
    radarR := fun _ _ => -7 }

/-- Concrete berth topology used as evaluation input for the builder. -/
def berthSpecEx : BerthSpec :=
  { name := "Berth-1"
    ship := some { name := "Ship-1", vesselId := "V-001" }
    radars := [("Radar-1", { seed := 50 })]
    bollards := [{ name := "Bollard-1", hooks := [("Hook-1", { attach := true, fault := false, seed := 50 })] }] }

/-- Concrete unfaulted critical hook used as evaluation input. -/
def hookCriticalEx : Hook :=
  { name := "Hook-9", tension := some 90, faulted := false, attachedLine := true }

/-- Concrete faulted attached hook with a stale reading, used as evaluation
input. -/
def hookFaultedEx : Hook :=
  { name := "Hook-5", tension := some 55, faulted := true, attachedLine := true }

/-- Concrete wall-clock reading of a generation request. -/
def genTimeEx : String :=
  "2025-11-01T09:00:00"

/-- Concrete later wall-clock reading of a download request. -/
def downloadTimeEx : String :=
  "2025-11-02T10:00:00"

/-- Concrete session: the port was generated while the clock read
genTimeEx. -/
def sessionEx : TimedState :=
  { generatedAt := genTimeEx, data := portEx }

theorem length_mapWithIdx (f : Nat → α → β) : ∀ (i : Nat) (l : List α),
    (mapWithIdx f i l).length = l.length
  | _, [] => rfl
  | i, _ :: as => by simp [mapWithIdx, length_mapWithIdx f (i + 1) as]

theorem all_mapWithIdx {q : β → Bool} {f : Nat → α → β} :
    ∀ {l : List α} (i : Nat), (∀ j a, a ∈ l → q (f j a) = true) →
      (mapWithIdx f i l).all q = true
  | [], _, _ => rfl
  | a :: as, i, h => by
    simp only [mapWithIdx, List.all_cons, Bool.and_eq_true]
    exact ⟨h i a (List.mem_cons_self a as),
      all_mapWithIdx (i + 1) fun j b hb => h j b (List.mem_cons_of_mem a hb)⟩

theorem map_mapWithIdx {g : α → γ} {f : Nat → α → α} :
    ∀ {l : List α} (i : Nat), (∀ j a, a ∈ l → g (f j a) = g a) →
      (mapWithIdx f i l).map g = l.map g
  | [], _, _ => rfl
  | a :: as, i, h => by
    simp only [mapWithIdx, List.map_cons]
    exact congrArg₂ _ (h i a (List.mem_cons_self a as))
      (map_mapWithIdx (i + 1) fun j b hb => h j b (List.mem_cons_of_mem a hb))

theorem clampQ_bounds {lo hi : ℚ} (h : lo ≤ hi) (x : ℚ) :
    lo ≤ clampQ lo hi x ∧ clampQ lo hi x ≤ hi :=
  ⟨le_max_left lo (min hi x), max_le h (min_le_left hi x)⟩

theorem clampQ_unit_nonneg (x : ℚ) : 0 ≤ clampQ 0 100 x :=
  (clampQ_bounds (by norm_num) x).1

theorem clampQ_unit_le (x : ℚ) : clampQ 0 100 x ≤ 100 :=
  (clampQ_bounds (by norm_num) x).2

theorem hookOK_initHook (hname : String) (r : HookInit) : hookOK (initHook hname r) = true := by
  cases hr : r.attach <;> simp [hookOK, initHook, hr]

theorem hookOK_updateHook (r : HookRand) (h : Hook) (hh : hookOK h = true) :
    hookOK (updateHook r h) = true := by
  rcases h with ⟨n, t, f, a⟩
  cases a <;> cases hd : r.detach <;> cases hr : r.reattach <;> cases t <;>
    simp_all [hookOK, updateHook]

theorem tensionRangeOK_initHook (hname : String) (r : HookInit) :
    tensionRangeOK (initHook hname r) = true := by
  cases hr : r.attach <;>
    simp [tensionRangeOK, initHook, hr, clampQ_unit_nonneg, clampQ_unit_le]

theorem tensionRangeOK_updateHook (r : HookRand) (h : Hook)
    (hh : tensionRangeOK h = true) : tensionRangeOK (updateHook r h) = true := by
  rcases h with ⟨n, t, f, a⟩
  cases a <;> cases hd : r.detach <;> cases hr : r.reattach <;> cases t <;>
    simp_all [tensionRangeOK, updateHook, clampQ_unit_nonneg, clampQ_unit_le]

theorem radarRangeOK_initRadar (cfg : Config) (hmax : 0 ≤ cfg.maxDistance)
    (rname : String) (sp : Bool) (r : RadarInit) :
    radarRangeOK cfg (initRadar cfg rname sp r) = true := by
  have hb := clampQ_bounds hmax r.seed
  cases sp <;> simp [radarRangeOK, initRadar, hmax, hb.1, hb.2]

theorem radarRangeOK_updateRadar (cfg : Config) (hmax : 0 ≤ cfg.maxDistance)
    (seed : ℚ) (r : Radar) : radarRangeOK cfg (updateRadar cfg seed r) = true := by
  have hb := clampQ_bounds hmax (r.shipDistance + seed)
  simp [radarRangeOK, updateRadar, hb.1, hb.2]

theorem hookInvB_buildPort (cfg : Config) (pname : String) (specs : List BerthSpec) :
    hookInvB (buildPort cfg pname specs) = true := by
  simp only [hookInvB, buildPort, List.all_eq_true, List.mem_map]
  rintro be ⟨bs, _, rfl⟩
  simp only [buildBerth, List.all_eq_true, List.mem_map]
  rintro bo ⟨bos, _, rfl⟩
  simp only [buildBollard, List.all_eq_true, List.mem_map]
  rintro hk ⟨nh, _, rfl⟩
  exact hookOK_initHook nh.1 nh.2

theorem hookInvB_updatePort (cfg : Config) (ρ : TickRand) (p : PortData)
    (hp : hookInvB p = true) : hookInvB (updatePort cfg ρ p) = true := by
  simp only [hookInvB, List.all_eq_true] at hp
  refine all_mapWithIdx 0 fun i be hbe => ?_
  have hbe' := hp be hbe
  simp only [List.all_eq_true] at hbe'
  refine all_mapWithIdx 0 fun j bo hbo => ?_
  have hbo' := hbe' bo hbo
  simp only [List.all_eq_true] at hbo'
  exact all_mapWithIdx 0 fun k hk hhk => hookOK_updateHook _ hk (hbo' hk hhk)

theorem hookInvB_updateN (cfg : Config) (ρs : Nat → TickRand) :
    ∀ (n : Nat) (p : PortData), hookInvB p = true → hookInvB (updateN cfg ρs n p) = true
  | 0, _, h => h
  | n + 1, p, h => hookInvB_updateN cfg ρs n _ (hookInvB_updatePort cfg (ρs n) p h)

theorem rangeInvB_buildPort (cfg : Config) (hmax : 0 ≤ cfg.maxDistance)
    (pname : String) (specs : List BerthSpec) :
    rangeInvB cfg (buildPort cfg pname specs) = true := by
  simp only [rangeInvB, buildPort, List.all_eq_true, List.mem_map, Bool.and_eq_true]
  rintro be ⟨bs, _, rfl⟩
  constructor
  · simp only [buildBerth, List.all_eq_true, List.mem_map]
    rintro bo ⟨bos, _, rfl⟩
    simp only [buildBollard, List.all_eq_true, List.mem_map]
    rintro hk ⟨nh, _, rfl⟩
    exact tensionRangeOK_initHook nh.1 nh.2
  · simp only [buildBerth, List.all_eq_true, List.mem_map]
    rintro r ⟨nr, _, rfl⟩
    exact radarRangeOK_initRadar cfg hmax nr.1 _ nr.2

theorem rangeInvB_updatePort (cfg : Config) (hmax : 0 ≤ cfg.maxDistance)
    (ρ : TickRand) (p : PortData) (hp : rangeInvB cfg p = true) :
    rangeInvB cfg (updatePort cfg ρ p) = true := by
  simp only [rangeInvB, List.all_eq_true, Bool.and_eq_true] at hp
  refine all_mapWithIdx 0 fun i be hbe => ?_
  obtain ⟨hbol, hrad⟩ := hp be hbe
  rw [Bool.and_eq_true]
  constructor
  · refine all_mapWithIdx 0 fun j bo hbo => ?_
    exact all_mapWithIdx 0 fun k hk hhk =>
      tensionRangeOK_updateHook _ hk (hbol bo hbo hk hhk)
  · show (if be.ship.isSome then _ else be.radars).all (radarRangeOK cfg) = true
    cases hsp : be.ship.isSome
    · simpa [hsp] using hrad
    · simp only [hsp, if_true]
      exact all_mapWithIdx 0 fun j r _ => radarRangeOK_updateRadar cfg hmax _ r

theorem rangeInvB_updateN (cfg : Config) (hmax : 0 ≤ cfg.maxDistance) (ρs : Nat → TickRand) :
    ∀ (n : Nat) (p : PortData), rangeInvB cfg p = true →
      rangeInvB cfg (updateN cfg ρs n p) = true
  | 0, _, h => h
  | n + 1, p, h => rangeInvB_updateN cfg hmax ρs n _ (rangeInvB_updatePort cfg hmax (ρs n) p h)

theorem bollardShape_updateBollard (ρ : Nat → HookRand) (bo : Bollard) :
    bollardShape (updateBollard ρ bo) = bollardShape bo := by
  simp [bollardShape, updateBollard, length_mapWithIdx]

theorem berthShape_updateBerth (cfg : Config) (ρh : Nat → Nat → HookRand) (ρr : Nat → ℚ)
    (be : Berth) : berthShape (updateBerth cfg ρh ρr be) = berthShape be := by
  simp only [berthShape, updateBerth]
  refine congrArg₂ _ rfl (congrArg₂ _ rfl (congrArg₂ _ ?_ ?_))
  · cases hsp : be.ship.isSome <;> simp [hsp, length_mapWithIdx]
  · exact map_mapWithIdx 0 fun j bo _ => bollardShape_updateBollard (ρh j) bo

theorem portShape_updatePort (cfg : Config) (ρ : TickRand) (p : PortData) :
    portShape (updatePort cfg ρ p) = portShape p := by
  simp only [portShape, updatePort]
  exact map_mapWithIdx 0 fun i be _ => berthShape_updateBerth cfg (ρ.hookR i) (ρ.radarR i) be

/-- C1: the tension-analysis view sorts the collected bollards in descending
order by the three-part key (critical_count, faulted_count, total_tension):
for every pair of positions i before j in the returned sequence, the entry at
i compares greater-or-equal to the entry at j under the lexicographic key.
This is the bollards field of the get_tension_analysis response. -/
theorem analysis_sorted_by_priority_key (p : PortData) (i j : Nat) (hij : i < j)
    (hj : j < (analysisSortedBollards p).length) :
    keyGE ((analysisSortedBollards p).get ⟨i, Nat.lt_trans hij hj⟩)
      ((analysisSortedBollards p).get ⟨j, hj⟩) := by
  have hs : (analysisSortedBollards p).Sorted keyGE :=
    List.sorted_insertionSort keyGE (allBollardInfos p)
  exact hs.rel_get_of_lt hij

/-- Witness for C1: the sorted analysis view of the concrete example port has
two entries and the first compares greater-or-equal to the second. -/
theorem analysis_sorted_by_priority_key_holds :
    keyGE ((analysisSortedBollards portEx).get ⟨0, by decide⟩)
      ((analysisSortedBollards portEx).get ⟨1, by decide⟩) :=
  analysis_sorted_by_priority_key portEx 0 1 (by decide) (by decide)

/-- C2: the analysis classification counts a hook as critical iff it is
unfaulted with non-null tension at least 86, dangerous iff unfaulted with
non-null tension in the range 70 to 85, attention iff unfaulted with non-null
tension in the range 40 to 69; a faulted hook is excluded from all three
severity predicates regardless of its tension and is counted exactly by the
faulted predicate.  The counts of the view are the countP of these
predicates. -/
theorem hook_classification (hs : List Hook) (h : Hook) :
    criticalCount hs = hs.countP criticalHook ∧
    dangerousCount hs = hs.countP dangerousHook ∧
    attentionCount hs = hs.countP attentionHook ∧
    faultedCount hs = hs.countP faultedHook ∧
    (criticalHook h = true ↔ h.faulted = false ∧ ∃ t, h.tension = some t ∧ 86 ≤ t) ∧
    (dangerousHook h = true ↔ h.faulted = false ∧ ∃ t, h.tension = some t ∧ 70 ≤ t ∧ t ≤ 85) ∧
    (attentionHook h = true ↔ h.faulted = false ∧ ∃ t, h.tension = some t ∧ 40 ≤ t ∧ t ≤ 69) ∧
    (faultedHook h = h.faulted) ∧
    (h.faulted = true →
      criticalHook h = false ∧ dangerousHook h = false ∧ attentionHook h = false ∧
        faultedHook h = true) := by
  obtain ⟨n, t, f, a⟩ := h
  refine ⟨rfl, rfl, rfl, rfl, ?_, ?_, ?_, rfl, ?_⟩ <;>
    cases t <;> cases f <;>
      simp [criticalHook, dangerousHook, attentionHook, faultedHook]

/-- Witness for C2: an unfaulted attached hook with tension 90 satisfies the
critical predicate. -/
theorem hook_classification_at_ninety : criticalHook hookCriticalEx = true :=
  (hook_classification [] hookCriticalEx).2.2.2.2.1.mpr ⟨rfl, 90, rfl, by norm_num⟩

/-- C3: every operation that requires an existing port state fails with the
no-state error when invoked before any successful generation, and performs no
state mutation: the only mutating handler, update_port, returns the held
state unchanged (still none), and the remaining handlers are reads. -/
theorem operations_fail_without_state (bname now : String) (cfg : Config) (ρ : TickRand) :
    currentState none = Except.error "NoStateYet" ∧
    get_berths none = Except.error "No port data available. Call /api/port first" ∧
    get_berth bname none = Except.error "No port data available. Call /api/port first" ∧
    update_port cfg ρ none =
      (Except.error "No port data available. Call /api/port first", none) ∧
    get_raw_port none = Except.error "No port data available. Call /api/port first" ∧
    get_statistics none = Except.error "No port data available. Call /api/port first" ∧
    get_tension_analysis none =
      Except.error "No port data available. Generate port data first" ∧
    download_port_data now none =
      Except.error "No port data available. Generate port data first" :=
  ⟨rfl, rfl, rfl, rfl, rfl, rfl, rfl, rfl⟩

/-- C4: when generation fails, get_port reports the error to the caller and
the held worker state after the attempt equals the state before it, so
subsequent reads observe either the previous complete port or no port at
all. -/
theorem failed_generation_preserves_state (e : String) (s : Option PortData) :
    get_port (Except.error e) s = (Except.error ("Failed to generate port: " ++ e), s) :=
  rfl

/-- C5: calling update on a held port state always succeeds, and the
structural skeleton (number of berths, per-berth bollard, hook and radar
counts, and the denormalized bollardCount and hookCount fields) is unchanged;
only leaf sensor fields may differ. -/
theorem update_succeeds_and_preserves_structure (cfg : Config) (ρ : TickRand) (d : PortData) :
    update_port cfg ρ (some d) =
      (Except.ok ("Port data updated successfully", (updatePort cfg ρ d).name),
        some (updatePort cfg ρ d)) ∧
    portShape (updatePort cfg ρ d) = portShape d ∧
    (updatePort cfg ρ d).berths.length = d.berths.length := by
  refine ⟨rfl, portShape_updatePort cfg ρ d, ?_⟩
  simpa [portShape] using congrArg List.length (portShape_updatePort cfg ρ d)

/-- C6: in every reachable port state (a generated port after any number of
update ticks, under every possible draw of the randomness oracles), every
hook with a non-null tension has attachedLine true. -/
theorem tension_requires_attached_line (cfg : Config) (pname : String)
    (specs : List BerthSpec) (ρs : Nat → TickRand) (n : Nat) :
    hookInvB (updateN cfg ρs n (buildPort cfg pname specs)) = true :=
  hookInvB_updateN cfg ρs n (buildPort cfg pname specs)
    (hookInvB_buildPort cfg pname specs)

/-- C7: in every reachable port state, under every possible draw of the
randomness oracles, every non-null tension stays in the range 0 to 100 and
every radar distance stays in the range 0 to the configured maximum (in
particular never negative), provided the configured maximum is
nonnegative. -/
theorem sensor_readings_stay_bounded (cfg : Config) (hmax : 0 ≤ cfg.maxDistance)
    (pname : String) (specs : List BerthSpec) (ρs : Nat → TickRand) (n : Nat) :
    rangeInvB cfg (updateN cfg ρs n (buildPort cfg pname specs)) = true :=
  rangeInvB_updateN cfg hmax ρs n (buildPort cfg pname specs)
    (rangeInvB_buildPort cfg hmax pname specs)

/-- Witness for C7: the concrete configuration has a nonnegative maximum and
the invariant holds after one tick on the concrete built port. -/
theorem sensor_readings_stay_bounded_holds :
    rangeInvB cfgEx (updateN cfgEx tickEx 1 (buildPort cfgEx "Port-Ex" [berthSpecEx])) = true :=
  sensor_readings_stay_bounded cfgEx (by norm_num [cfgEx]) "Port-Ex" [berthSpecEx] tickEx 1

/-- C8 counterexample: the downloadable snapshot is stamped with the
wall-clock reading of the download request, not with the generation
timestamp of the held state (the state carries no generation time at all):
for a session generated at genTimeEx and downloaded at the later
downloadTimeEx, the exported timestamp is downloadTimeEx and differs from
genTimeEx. -/
theorem download_timestamp_is_not_generation_time :
    (download_port_data downloadTimeEx (some sessionEx.data)).map DataExport.timestamp =
      Except.ok downloadTimeEx ∧
    (download_port_data downloadTimeEx (some sessionEx.data)).map DataExport.timestamp ≠
      Except.ok sessionEx.generatedAt := by
  constructor
  · rfl
  · intro hcontra
    simp only [sessionEx, genTimeEx, downloadTimeEx, download_port_data, Except.map] at hcontra
    exact absurd (Except.ok.inj hcontra) (by decide)

/-- C8 amended: the downloadable snapshot of the current PortState includes a
timestamp taken when the snapshot is produced (the wall-clock reading of the
download request), alongside the port name, berth count, and the full
berth/radar/bollard/hook tree. -/
theorem download_snapshot_contents (now : String) (d : PortData) :
    download_port_data now (some d) =
      Except.ok
        { timestamp := now
          port_name := d.name
          total_berths := d.berths.length
          berths := d.berths.map mkBerthDetail } :=
  rfl

/-- C9: the severity buckets do not cover the tension range: an unfaulted
hook whose non-null tension lies strictly between 69 and 70 or strictly
between 85 and 86 satisfies none of the attention, dangerous or critical
predicates, and contributes to none of the three counts. -/
theorem severity_buckets_have_gaps (hname : String) (att : Bool) (t : ℚ)
    (hgap : (69 < t ∧ t < 70) ∨ (85 < t ∧ t < 86)) :
    criticalHook { name := hname, tension := some t, faulted := false, attachedLine := att } = false ∧
    dangerousHook { name := hname, tension := some t, faulted := false, attachedLine := att } = false ∧
    attentionHook { name := hname, tension := some t, faulted := false, attachedLine := att } = false ∧
    criticalCount [{ name := hname, tension := some t, faulted := false, attachedLine := att }] = 0 ∧
    dangerousCount [{ name := hname, tension := some t, faulted := false, attachedLine := att }] = 0 ∧
    attentionCount [{ name := hname, tension := some t, faulted := false, attachedLine := att }] = 0 := by
  have hc : ¬(86 ≤ t) := by rcases hgap with ⟨_, h2⟩ | ⟨_, h2⟩ <;> linarith
  have hd : ¬(70 ≤ t) ∨ ¬(t ≤ 85) := by
    rcases hgap with ⟨_, h2⟩ | ⟨h1, _⟩
    · exact Or.inl (by linarith)
    · exact Or.inr (by linarith)
  have ha : ¬(40 ≤ t) ∨ ¬(t ≤ 69) := by
    rcases hgap with ⟨h1, _⟩ | ⟨h1, _⟩
    · exact Or.inr (by linarith)
    · exact Or.inr (by linarith)
  rcases hd with hd | hd <;> rcases ha with ha | ha <;>
    simp [criticalHook, dangerousHook, attentionHook,
      criticalCount, dangerousCount, attentionCount, List.countP_cons, hc, hd, ha]

/-- Witness for C9: tension 139/2, strictly between 69 and 70, is counted in
no severity bucket. -/
theorem severity_buckets_gap_at_midpoint :
    criticalHook { name := "Hook-1", tension := some (139/2), faulted := false, attachedLine := true } = false ∧
    dangerousHook { name := "Hook-1", tension := some (139/2), faulted := false, attachedLine := true } = false ∧
    attentionHook { name := "Hook-1", tension := some (139/2), faulted := false, attachedLine := true } = false ∧
    criticalCount [{ name := "Hook-1", tension := some (139/2), faulted := false, attachedLine := true }] = 0 ∧
    dangerousCount [{ name := "Hook-1", tension := some (139/2), faulted := false, attachedLine := true }] = 0 ∧
    attentionCount [{ name := "Hook-1", tension := some (139/2), faulted := false, attachedLine := true }] = 0 :=
  severity_buckets_have_gaps "Hook-1" true (139/2) (Or.inl ⟨by norm_num, by norm_num⟩)

/-- C10: both total_tension aggregates (the statistics accumulator and the
third sort key of the analysis view) include the stale tension of a faulted
hook, and in the statistics a faulted attached hook is counted in
active_hooks and in faulted_hooks simultaneously. -/
theorem faulted_tension_counted_in_totals (hs : List Hook) (h : Hook) (t : ℚ)
    (hf : h.faulted = true) (ha : h.attachedLine = true) (ht : h.tension = some t) :
    statsTotalTension (h :: hs) = t + statsTotalTension hs ∧
    totalTension (h :: hs) = t + totalTension hs ∧
    activeHooksCount (h :: hs) = activeHooksCount hs + 1 ∧
    faultedHooksCount (h :: hs) = faultedHooksCount hs + 1 := by
  simp [statsTotalTension, totalTension, activeHooksCount, faultedHooksCount,
    List.countP_cons, List.filterMap_cons, ht, ha, hf]

/-- Witness for C10: the faulted attached hook with stale tension 55
contributes 55 to both totals and one unit to both counters. -/
theorem faulted_tension_counted_in_totals_holds :
    statsTotalTension [hookFaultedEx] = 55 + statsTotalTension [] ∧
    totalTension [hookFaultedEx] = 55 + totalTension [] ∧
    activeHooksCount [hookFaultedEx] = activeHooksCount [] + 1 ∧
    faultedHooksCount [hookFaultedEx] = faultedHooksCount [] + 1 :=
  faulted_tension_counted_in_totals [] hookFaultedEx 55 rfl rfl rfl

end Mooring
